import Mathlib

/-!
Shallow embedding of the core of `rag_utils.py` (together with the
blocked-terms update handler of `pages/adminui.py`) from the AI-RAG
repository.

File-backed state (config file, blocked-terms file, chat log file, the
folder of documents, the metrics series) is passed explicitly; external
effects (the Ollama embedding/generation backends, the Chroma vector
store, the document loaders, the SemanticChunker construction) are
modelled as explicit `Except`-valued outcomes supplied as parameters, so
that every control path of the Python source is a path of the Lean
definitions.
-/

namespace RagUtils

/-- `startsList needle hay` is `true` iff `needle` is an initial segment of
`hay`; building block for the Python substring test. -/
def startsList : List Char → List Char → Bool
  | [], _ => true
  | _ :: _, [] => false
  | a :: as, b :: bs => a == b && startsList as bs

/-- `containsSub needle hay` models Python's substring test `needle in hay`. -/
def containsSub : List Char → List Char → Bool
  | needle, [] => startsList needle []
  | needle, a :: rest => startsList needle (a :: rest) || containsSub needle rest

/-- Models Python `s.lower()` (ASCII case folding, which is what the
blocked-term comparison relies on). -/
def lowerChars (s : String) : List Char :=
  s.toList.map Char.toLower

/-- Models Python `s.strip()`: drop whitespace from both ends. -/
def stripChars (l : List Char) : List Char :=
  ((l.dropWhile Char.isWhitespace).reverse.dropWhile Char.isWhitespace).reverse

/-- Models Python `s.strip()` at the `String` level. -/
def pyStrip (s : String) : String :=
  (stripChars s.toList).asString

/-- Fuel-based worker for splitting on a separator sequence. -/
def splitOnListAux (sep : List Char) : Nat → List Char → List Char → List (List Char)
  | 0, cur, _ => [cur.reverse]
  | _, cur, [] => [cur.reverse]
  | Nat.succ fuel, cur, a :: as =>
    if !sep.isEmpty && startsList sep (a :: as) then
      cur.reverse :: splitOnListAux sep fuel [] ((a :: as).drop sep.length)
    else
      splitOnListAux sep fuel (a :: cur) as

/-- Models Python `s.split(sep)` for a non-empty separator (empty input
yields the one-element list holding the empty string, as in Python). -/
def splitOnList (sep l : List Char) : List (List Char) :=
  splitOnListAux sep (l.length + 1) [] l

/-- Models Python `s.split(sep)` at the `String` level. -/
def pySplit (sep s : String) : List String :=
  (splitOnList sep.toList s.toList).map List.asString

/-- Models Python `s.endswith(suffix)`. -/
def endsWithB (suffix s : String) : Bool :=
  startsList suffix.toList.reverse s.toList.reverse

/-- The config record persisted in `config.json`. -/
structure Config where
  generation_model : String
  embedding_model : String
deriving DecidableEq

/-- The defaults written by `load_config` when `config.json` is absent. -/
def default_config : Config :=
  ⟨"gemma2:9b", "nomic-embed-text"⟩

/-- `load_config` from `rag_utils.py`: the state is the config file
(`none` = absent, `some c` = present with parsed contents `c`); the result
is the value returned together with the file state after the call.  When
the file is absent the defaults are written and returned; otherwise the
file is read and returned unchanged. -/
def load_config : Option Config → Config × Option Config
  | none => (default_config, some default_config)
  | some c => (c, some c)

/-- `check_blocked` from `rag_utils.py`: lowercase the query once, return
`true` iff some blocked term, lowercased, occurs in it as a substring.
The blocked-terms file contents are passed as `blocked_terms`. -/
def check_blocked (blocked_terms : List String) (query : String) : Bool :=
  blocked_terms.any (fun term => containsSub (lowerChars term) (lowerChars query))

/-- `save_blocked_terms` from `rag_utils.py`: overwrite the blocked-terms
file with `terms`; the previous contents `_prev` are discarded. -/
def save_blocked_terms (terms : List String) (_prev : List String) : List String :=
  terms

/-- The `Update Filter` button handler of `pages/adminui.py`: if the text
area contents are non-empty after stripping, split on commas, strip each
term and save; otherwise save the empty list. -/
def updateFilterHandler (new_filter : String) (prev : List String) : List String :=
  if pyStrip new_filter ≠ "" then
    save_blocked_terms ((pySplit "," new_filter).map pyStrip) prev
  else
    save_blocked_terms [] prev

/-- One entry of the chat log written by `log_query`. -/
structure LogEntry where
  timestamp : Nat
  query : String
  response : String
  session_id : String
deriving DecidableEq

/-- The chat log file: absent, unreadable/corrupt, or a well-formed array
of entries. -/
inductive LogFile where
  | absent
  | corrupt
  | wellFormed (entries : List LogEntry)
deriving DecidableEq

/-- How `log_query` reads the log file: a missing or corrupt file is
treated as the empty list of entries. -/
def readLogs : LogFile → List LogEntry
  | LogFile.wellFormed entries => entries
  | _ => []

/-- `log_query` from `rag_utils.py`: read the existing entries (corrupt or
missing file = empty), append exactly one new entry, write the file back. -/
def log_query (now : Nat) (query response session_id : String) (f : LogFile) : LogFile :=
  LogFile.wellFormed (readLogs f ++ [⟨now, query, response, session_id⟩])

/-- The environment `query_rag` runs in: the blocked-terms file contents,
the outcome of `load_rag()` (retrieval setup: config + embeddings +
vector store + retriever + chain construction), and the outcome of
`qa.invoke({"query": q})["result"]` for each query. -/
structure RagEnv where
  blocked_terms : List String
  load_rag : Except String Unit
  invoke : String → Except String String

/-- External calls made by `query_rag` on its non-raising paths, in order. -/
inductive RagCall where
  | loadRagCall
  | invokeCall
deriving DecidableEq

/-- The canned refusal returned for blocked queries. -/
def blockedMsg : String :=
  "Sorry, that query is not allowed. Please ask something else."

/-- `query_rag` from `rag_utils.py`.  A blocked query is logged and the
canned message returned before any retrieval machinery is touched.
Otherwise `load_rag()` runs OUTSIDE the try/except of the source, so its
failure propagates as `Except.error` (an unhandled Python exception, with
no log entry written); only the `invoke` call is guarded, with its failure
converted to an error-text answer that is logged and returned.  The result
carries the response, the updated log file, and the calls made. -/
def query_rag (env : RagEnv) (now : Nat) (query session_id : String) (f : LogFile) :
    Except String (String × LogFile × List RagCall) :=
  if check_blocked env.blocked_terms query then
    Except.ok (blockedMsg, log_query now query blockedMsg session_id f, [])
  else
    match env.load_rag with
    | Except.error e => Except.error e
    | Except.ok _ =>
      match env.invoke query with
      | Except.ok response =>
        Except.ok (response, log_query now query response session_id f,
          [RagCall.loadRagCall, RagCall.invokeCall])
      | Except.error e =>
        Except.ok ("Error querying RAG: " ++ e,
          log_query now query ("Error querying RAG: " ++ e) session_id f,
          [RagCall.loadRagCall, RagCall.invokeCall])

/-- Parameters of the character-based fallback splitter configured by
`get_hierarchical_splitter`. -/
structure CharSplitParams where
  separators : List String
  chunk_size : Nat
  chunk_overlap : Nat
deriving DecidableEq

/-- The exact fallback configuration from `rag_utils.py`:
`RecursiveCharacterTextSplitter(separators=["\n\n", "\n", ". ", " "],
chunk_size=1000, chunk_overlap=150)`. -/
def fallbackParams : CharSplitParams :=
  ⟨["\n\n", "\n", ". ", " "], 1000, 150⟩

/-- Worker merging separator splits back into chunks of at most
`size` characters (re-inserting the separator), greedily left to right. -/
def mergeSplitsAux (size : Nat) (sep : String) (acc : String) : List String → List String
  | [] => if acc = "" then [] else [acc]
  | p :: rest =>
    if acc = "" then
      mergeSplitsAux size sep p rest
    else if acc.length + sep.length + p.length ≤ size then
      mergeSplitsAux size sep (acc ++ sep ++ p) rest
    else
      acc :: mergeSplitsAux size sep p rest

/-- Fuel-based hard character cut: chunks of `size` characters advancing by
`step` characters (so consecutive chunks overlap by `size - step`). -/
def hardCutAux (size step : Nat) : Nat → List Char → List (List Char)
  | _, [] => []
  | 0, l => [l]
  | Nat.succ fuel, l => l.take size :: hardCutAux size step fuel (l.drop step)

/-- Hard character cut at the `String` level. -/
def hardCut (size step : Nat) (text : String) : List String :=
  (hardCutAux size step (text.toList.length + 1) text.toList).map List.asString

/-- Modelled from the spec: the character-based fallback splitter is the
external `RecursiveCharacterTextSplitter` library class, whose body is not
part of this repository; the spec describes it as splitting on the first
applicable separator of a priority list with a fixed target character
length and overlap, falling back to a hard character cut if no separator
exists, and never failing.  This is a total Lean function: split on the
first separator occurring in the text, merge the pieces greedily up to the
target length; with no separator present, return the text whole when it
fits and hard-cut it with overlap otherwise. -/
def charSplit (p : CharSplitParams) (text : String) : List String :=
  match p.separators.find? (fun sep => containsSub sep.toList text.toList) with
  | some sep => mergeSplitsAux p.chunk_size sep "" (pySplit sep text)
  | none =>
    if text.length ≤ p.chunk_size then [text]
    else hardCut p.chunk_size (p.chunk_size - p.chunk_overlap) text

/-- The splitter object returned by `get_hierarchical_splitter`: either the
semantic chunker (whose per-document behaviour, embedding calls included,
is the supplied `Except`-valued function) or the character fallback with
its configured parameters. -/
inductive Splitter where
  | semantic (split : List String → Except String (List String))
  | charFallback (params : CharSplitParams)

/-- `get_hierarchical_splitter` from `rag_utils.py`: try to CONSTRUCT
`SemanticChunker(embeddings, breakpoint_threshold_type="percentile")`; only
if that constructor raises does the except branch return the
`RecursiveCharacterTextSplitter` fallback.  `ctor` is the outcome of the
constructor call. -/
def get_hierarchical_splitter
    (ctor : Except String (List String → Except String (List String))) : Splitter :=
  match ctor with
  | Except.ok split => Splitter.semantic split
  | Except.error _ => Splitter.charFallback fallbackParams

/-- `splitter.split_documents(docs)`: the semantic chunker may raise (its
embedding calls fail), surfacing as `Except.error`; the character fallback
is a total function and always succeeds. -/
def split_documents : Splitter → List String → Except String (List String)
  | Splitter.semantic split, docs => split docs
  | Splitter.charFallback p, docs => Except.ok ((docs.map (charSplit p)).flatten)

/-- One directory entry of the documents folder, with the outcome its
loader (`TextLoader` for `.txt`, `UnstructuredFileLoader` for the rich
formats) would produce: the loaded page contents, or a raised exception. -/
structure SrcFile where
  name : String
  loadResult : Except String (List String)

/-- Extension dispatch of `ingest_documents`: `file.endswith('.txt')`. -/
def isTxt (name : String) : Bool :=
  endsWithB ".txt" name

/-- Extension dispatch of `ingest_documents`:
`file.endswith(('.pdf', '.docx', '.pptx'))`. -/
def isRich (name : String) : Bool :=
  endsWithB ".pdf" name || endsWithB ".docx" name || endsWithB ".pptx" name

/-- The document-accumulation loop of `ingest_documents`.  Files with
unrecognized extensions are skipped.  For a recognized file, the loader
runs OUTSIDE any try/except in the source, so a load failure propagates
and aborts the whole loop (`Except.error`).  Splitting, by contrast, runs
inside the per-file try/except: a split failure only skips that file.
Split chunks are stripped (`d.page_content.strip()`) and accumulated in
file order. -/
def collectDocs (splitter : Splitter) : List SrcFile → Except String (List String)
  | [] => Except.ok []
  | f :: rest =>
    if isTxt f.name || isRich f.name then
      match f.loadResult with
      | Except.error e => Except.error e
      | Except.ok docs =>
        match collectDocs splitter rest with
        | Except.error e => Except.error e
        | Except.ok ds =>
          match split_documents splitter docs with
          | Except.ok sd => Except.ok ((sd.map pyStrip) ++ ds)
          | Except.error _ => Except.ok ds
    else
      collectDocs splitter rest

/-- Modelled from the spec: the `IngestionMetric` record `{timestamp,
totalChunks, avgChunkSizeChars, maxChunkSizeChars, filesProcessed}` that
the spec says is appended to the metrics series once per ingestion run
(`pages/metricsui.py` reads such records from `metrics.json`); no code
under `src/` ever writes one. -/
structure IngestionMetric where
  timestamp : Nat
  total_chunks : Nat
  avg_chunk_size_chars : Nat
  max_chunk_size_chars : Nat
  files_processed : Nat
deriving DecidableEq

/-- The zero-chunk result of `ingest_documents`. -/
def noValidMsg : String :=
  "No valid documents found."

/-- The success summary of `ingest_documents`:
`f"Ingested {len(documents)} chunks from {len(os.listdir(folder_path))} files!"`. -/
def successMsg (chunks files : Nat) : String :=
  "Ingested " ++ toString chunks ++ " chunks from " ++ toString files ++ " files!"

/-- `ingest_documents` from `rag_utils.py`.  The folder listing is
`folder`; `metrics` is the metrics series on disk, threaded through so the
result shows what the run appends to it — the source never writes a
metrics record, so it is returned unchanged.  A load failure propagates
(see `collectDocs`); otherwise, if any chunks were produced they are
upserted and the success summary returned (its file count is the length of
the WHOLE folder listing), and with zero chunks the distinct no-valid
result is returned. -/
def ingest_documents (splitter : Splitter) (folder : List SrcFile)
    (metrics : List IngestionMetric) :
    Except String (String × List IngestionMetric) :=
  match collectDocs splitter folder with
  | Except.error e => Except.error e
  | Except.ok documents =>
    match documents with
    | [] => Except.ok (noValidMsg, metrics)
    | d :: ds => Except.ok (successMsg (d :: ds).length folder.length, metrics)

/-- Whether a folder entry actually contributes chunks to an ingestion run
under `splitter`: recognized extension, loader succeeds, splitter succeeds
on it with at least one chunk. -/
def fileContributes (splitter : Splitter) (f : SrcFile) : Bool :=
  (isTxt f.name || isRich f.name) &&
    (match f.loadResult with
     | Except.error _ => false
     | Except.ok docs =>
       match split_documents splitter docs with
       | Except.ok sd => !sd.isEmpty
       | Except.error _ => false)

/-- A semantic splitter whose embedding backend raises exactly on the
document text `"BAD"`: used to exhibit a run where one file is skipped for
a split failure. -/
def semanticFailingOnBAD : Splitter :=
  Splitter.semantic (fun docs => if docs = ["BAD"] then Except.error "boom" else Except.ok docs)

/-- A three-entry folder listing: one contributing `.txt` file, one file of
unrecognized extension, one `.txt` file whose split fails under
`semanticFailingOnBAD`. -/
def mixedFolder : List SrcFile :=
  [⟨"a.txt", Except.ok ["good content"]⟩,
   ⟨"notes.md", Except.ok ["ignored"]⟩,
   ⟨"b.txt", Except.ok ["BAD"]⟩]

/-- An empty needle is a substring of every string. -/
lemma containsSub_nil_left (hay : List Char) : containsSub [] hay = true := by
  cases hay <;> simp [containsSub, startsList]

/-- If the persisted blocked-terms list contains the empty string,
`check_blocked` accepts every query. -/
lemma check_blocked_of_mem_empty (terms : List String) (q : String) (h : "" ∈ terms) :
    check_blocked terms q = true := by
  unfold check_blocked
  rw [List.any_eq_true]
  refine ⟨"", h, ?_⟩
  show containsSub (lowerChars "") (lowerChars q) = true
  exact containsSub_nil_left (lowerChars q)

/-- On a blocked query, `query_rag` returns the canned message, appends
exactly one log entry, and makes no external call. -/
lemma query_rag_blocked_eq (env : RagEnv) (now : Nat) (q sid : String) (f : LogFile)
    (h : check_blocked env.blocked_terms q = true) :
    query_rag env now q sid f =
      Except.ok (blockedMsg, LogFile.wellFormed (readLogs f ++ [⟨now, q, blockedMsg, sid⟩]),
        ([] : List RagCall)) := by
  simp [query_rag, h, log_query]

/-- Claim C1, counterexample.  The claim says `query_rag` always returns a
response string and appends exactly one log entry, including when
retrieval setup fails.  But `load_rag()` runs outside the try/except: with
a non-blocked query and a failing retrieval setup, `query_rag` propagates
the exception (`Except.error`) — no response string is returned and no log
entry is written (the error result carries no updated log file). -/
theorem query_rag_setup_failure_unlogged :
    query_rag ⟨[], Except.error "connection refused", fun _ => Except.ok "42"⟩ 0 "hi" "s1"
      (LogFile.wellFormed []) = Except.error "connection refused" := by
  rfl

/-- Claim C1, amended.  Whenever the query is blocked, or retrieval setup
(`load_rag`) succeeds, `query_rag` returns a response string and appends
exactly one log entry whose query field is the input and whose response
field is the returned string — in particular when retrieval or generation
(`invoke`) fails; only a retrieval-setup failure escapes unlogged. -/
theorem query_rag_logs_once_unless_setup_fails (env : RagEnv) (now : Nat) (q sid : String)
    (f : LogFile)
    (h : check_blocked env.blocked_terms q = true ∨ env.load_rag = Except.ok ()) :
    ∃ resp calls, query_rag env now q sid f =
      Except.ok (resp, LogFile.wellFormed (readLogs f ++ [⟨now, q, resp, sid⟩]), calls) := by
  by_cases hc : check_blocked env.blocked_terms q = true
  · exact ⟨blockedMsg, [], query_rag_blocked_eq env now q sid f hc⟩
  · rcases h with h | h
    · exact absurd h hc
    · cases hi : env.invoke q with
      | ok r =>
        refine ⟨r, [RagCall.loadRagCall, RagCall.invokeCall], ?_⟩
        simp [query_rag, hc, h, hi, log_query]
      | error e =>
        refine ⟨"Error querying RAG: " ++ e, [RagCall.loadRagCall, RagCall.invokeCall], ?_⟩
        simp [query_rag, hc, h, hi, log_query]

/-- Claim C1, witness: a successful generation run logs once and returns. -/
theorem query_rag_logs_once_unless_setup_fails_witness :
    ∃ resp calls,
      query_rag ⟨[], Except.ok (), fun _ => Except.ok "42"⟩ 0 "hi" "s1" (LogFile.wellFormed []) =
        Except.ok (resp,
          LogFile.wellFormed (readLogs (LogFile.wellFormed []) ++ [⟨0, "hi", resp, "s1"⟩]),
          calls) :=
  query_rag_logs_once_unless_setup_fails ⟨[], Except.ok (), fun _ => Except.ok "42"⟩ 0 "hi"
    "s1" (LogFile.wellFormed []) (Or.inr rfl)

/-- Claim C3: for every query matching some persisted blocked term
(case-insensitively, as a substring), `query_rag` returns the fixed canned
message, appends exactly one log entry with that query/response pair, and
makes no external call — neither retrieval setup, nor retrieval, nor
generation. -/
theorem blocked_query_canned_logged_no_calls (env : RagEnv) (now : Nat) (q sid : String)
    (f : LogFile) (h : check_blocked env.blocked_terms q = true) :
    query_rag env now q sid f =
      Except.ok (blockedMsg, LogFile.wellFormed (readLogs f ++ [⟨now, q, blockedMsg, sid⟩]),
        ([] : List RagCall)) :=
  query_rag_blocked_eq env now q sid f h

/-- Claim C3, witness: the spec's own scenario, `setTerms(["password"])`
then `query("what is my password")`, with a broken backend to stress that
no backend call happens. -/
theorem blocked_query_canned_logged_no_calls_witness :
    query_rag ⟨["password"], Except.error "backend down", fun _ => Except.ok "42"⟩ 0
      "what is my password" "s1" (LogFile.wellFormed []) =
      Except.ok (blockedMsg,
        LogFile.wellFormed (readLogs (LogFile.wellFormed []) ++
          [⟨0, "what is my password", blockedMsg, "s1"⟩]), ([] : List RagCall)) :=
  blocked_query_canned_logged_no_calls
    ⟨["password"], Except.error "backend down", fun _ => Except.ok "42"⟩ 0
    "what is my password" "s1" (LogFile.wellFormed []) (by decide)

/-- Claim C10: if the persisted blocked-terms list contains the empty
string, `check_blocked` is true for every query (the empty string is a
substring of every string), so `query_rag` returns the canned blocked
message for every input. -/
theorem empty_blocked_term_blocks_all (env : RagEnv) (now : Nat) (q sid : String) (f : LogFile)
    (h : "" ∈ env.blocked_terms) :
    check_blocked env.blocked_terms q = true ∧
    query_rag env now q sid f =
      Except.ok (blockedMsg, LogFile.wellFormed (readLogs f ++ [⟨now, q, blockedMsg, sid⟩]),
        ([] : List RagCall)) := by
  have hc := check_blocked_of_mem_empty env.blocked_terms q h
  exact ⟨hc, query_rag_blocked_eq env now q sid f hc⟩

/-- Claim C10, witness: with `[""]` persisted, the harmless query
`"hello"` is refused. -/
theorem empty_blocked_term_blocks_all_witness :
    check_blocked (RagEnv.blocked_terms ⟨[""], Except.ok (), fun _ => Except.ok "42"⟩)
      "hello" = true ∧
    query_rag ⟨[""], Except.ok (), fun _ => Except.ok "42"⟩ 0 "hello" "s1"
      (LogFile.wellFormed []) =
      Except.ok (blockedMsg,
        LogFile.wellFormed (readLogs (LogFile.wellFormed []) ++
          [⟨0, "hello", blockedMsg, "s1"⟩]), ([] : List RagCall)) :=
  empty_blocked_term_blocks_all ⟨[""], Except.ok (), fun _ => Except.ok "42"⟩ 0 "hello" "s1"
    (LogFile.wellFormed []) (by decide)

/-- Claim C5: `load_config` is idempotent in the absence of updates — a
second call returns the same value and leaves the same file state — and
when no config file exists it creates exactly one config file holding the
defaults `gemma2:9b` / `nomic-embed-text` and returns those defaults. -/
theorem load_config_idempotent_defaults (s : Option Config) :
    (load_config (load_config s).2).1 = (load_config s).1 ∧
    (load_config (load_config s).2).2 = (load_config s).2 ∧
    load_config none = (default_config, some default_config) ∧
    default_config = ⟨"gemma2:9b", "nomic-embed-text"⟩ := by
  cases s <;> simp [load_config, default_config]

/-- Claim C8: the blocked-terms update operation (the `Update Filter`
handler backed by `save_blocked_terms`) has replace-all semantics — the
result never depends on the previously persisted list; a non-empty input
persists exactly the comma-separated sequence with each term stripped of
surrounding whitespace; an empty (all-whitespace) input clears the list
entirely. -/
theorem update_filter_replace_all_trim_clear (input : String) (prev prev2 : List String) :
    updateFilterHandler input prev = updateFilterHandler input prev2 ∧
    (pyStrip input ≠ "" →
      updateFilterHandler input prev = (pySplit "," input).map pyStrip) ∧
    (pyStrip input = "" → updateFilterHandler input prev = []) := by
  refine ⟨rfl, ?_, ?_⟩
  · intro h
    simp [updateFilterHandler, h, save_blocked_terms]
  · intro h
    simp [updateFilterHandler, h, save_blocked_terms]

/-- Claim C8, witness: a concrete comma-separated input is stripped
per-term and replaces the old list; a whitespace-only input clears it. -/
theorem update_filter_replace_all_trim_clear_witness :
    updateFilterHandler " password, hack ,illegal" ["old"] = ["password", "hack", "illegal"] ∧
    updateFilterHandler "   " ["old"] = [] := by
  constructor
  · have h := (update_filter_replace_all_trim_clear " password, hack ,illegal" ["old"]
      []).2.1 (by decide)
    rw [h]
    rfl
  · exact (update_filter_replace_all_trim_clear "   " ["old"] []).2.2 (by decide)

/-- Claim C4, counterexample.  The claim says that whenever the semantic
split tier fails — in particular when its embedding calls fail — chunking
falls through to the character-based fallback splitter.  In the source the
except branch guards only the `SemanticChunker(...)` CONSTRUCTOR: when
construction succeeds and the embedding backend then fails during
`split_documents`, the error propagates (the file is later skipped by
ingestion) instead of the fallback splitter's output being produced. -/
theorem semantic_split_failure_no_fallback :
    split_documents
      (get_hierarchical_splitter
        (Except.ok (fun _ => Except.error "embedding backend unavailable")))
      ["hello world"] = Except.error "embedding backend unavailable" ∧
    split_documents (Splitter.charFallback fallbackParams) ["hello world"] =
      Except.ok ["hello world"] :=
  ⟨rfl, rfl⟩

/-- Claim C4, amended: when CONSTRUCTING the semantic splitter raises,
selection falls through to the character-based fallback splitter with
separator priority list `["\n\n", "\n", ". ", " "]`, target chunk length
1000 and overlap 150, and that fallback tier never fails — it returns
chunks for every input; but an embedding failure during an already
constructed semantic splitter's split call propagates as an error rather
than falling through. -/
theorem fallback_selection_params_and_total (e : String) (docs : List String) :
    get_hierarchical_splitter (Except.error e) =
      Splitter.charFallback ⟨["\n\n", "\n", ". ", " "], 1000, 150⟩ ∧
    split_documents (Splitter.charFallback fallbackParams) docs =
      Except.ok ((docs.map (charSplit fallbackParams)).flatten) :=
  ⟨rfl, rfl⟩

/-- Claim C2: evaluates `ingest_documents` at the claim's own scenario — a
folder with one well-formed `.txt` file and one corrupt file of recognized
extension whose loader raises.  Because `loader.load()` runs outside the
per-file try/except, the load failure propagates and aborts the whole
ingestion with an exception: no summary is returned and the well-formed
file's chunks are lost, where the claim (and the code's own per-file
except-and-continue pattern) requires the corrupt file to be skipped. -/
theorem ingest_documents_aborts_on_load_failure :
    ingest_documents (Splitter.charFallback fallbackParams)
      [⟨"good.txt", Except.ok ["good content"]⟩,
       ⟨"corrupt.pdf", Except.error "failed to parse PDF"⟩] [] =
      Except.error "failed to parse PDF" := by
  rfl

/-- Claim C6: contrary to the claim, no run of `ingest_documents` ever
appends an `IngestionMetric` record — every run either raises or returns
the metrics series exactly as it found it (the source contains no code
writing `metrics.json`, although `pages/metricsui.py` expects ingestion
runs to have appended records there). -/
theorem ingest_documents_no_metric_appended (splitter : Splitter) (folder : List SrcFile)
    (metrics : List IngestionMetric) :
    (∃ e, ingest_documents splitter folder metrics = Except.error e) ∨
    (∃ s, ingest_documents splitter folder metrics = Except.ok (s, metrics)) := by
  cases h : collectDocs splitter folder with
  | error e => exact Or.inl ⟨e, by simp [ingest_documents, h]⟩
  | ok ds =>
    cases ds with
    | nil => exact Or.inr ⟨noValidMsg, by simp [ingest_documents, h]⟩
    | cons d t =>
      exact Or.inr ⟨successMsg (d :: t).length folder.length, by simp [ingest_documents, h]⟩

/-- Claim C7: when the accumulation loop completes, `ingest_documents`
returns the human-readable success summary reporting chunk count and file
count if at least one chunk was produced, and the distinct "no valid
documents" result — not a zero-count success message — when zero chunks
were produced. -/
theorem ingest_summary_dispatch (splitter : Splitter) (folder : List SrcFile)
    (metrics : List IngestionMetric) (ds : List String)
    (h : collectDocs splitter folder = Except.ok ds) :
    (ds = [] → ingest_documents splitter folder metrics = Except.ok (noValidMsg, metrics)) ∧
    (ds ≠ [] → ingest_documents splitter folder metrics =
      Except.ok (successMsg ds.length folder.length, metrics)) := by
  constructor
  · intro h2
    subst h2
    simp [ingest_documents, h]
  · intro h2
    cases ds with
    | nil => exact absurd rfl h2
    | cons d t => simp [ingest_documents, h]

/-- Claim C7, witness: an empty folder yields the "no valid documents"
result; a folder with one well-formed `.txt` file yields the one-chunk,
one-file success summary. -/
theorem ingest_summary_dispatch_witness :
    ingest_documents (Splitter.charFallback fallbackParams) [] [] =
      Except.ok (noValidMsg, ([] : List IngestionMetric)) ∧
    ingest_documents (Splitter.charFallback fallbackParams)
      [⟨"a.txt", Except.ok ["hello world"]⟩] [] =
      Except.ok (successMsg 1 1, ([] : List IngestionMetric)) := by
  constructor
  · exact (ingest_summary_dispatch (Splitter.charFallback fallbackParams) [] [] [] rfl).1 rfl
  · exact (ingest_summary_dispatch (Splitter.charFallback fallbackParams)
      [⟨"a.txt", Except.ok ["hello world"]⟩] [] ["hello world"] (by rfl)).2 (by simp)

/-- Claim C9: the file count reported by the success summary is the length
of the WHOLE folder listing (`len(os.listdir(folder_path))`) — skipped and
failed entries included — not the number of files that contributed
chunks. -/
theorem ingest_file_count_is_listing_length (splitter : Splitter) (folder : List SrcFile)
    (metrics : List IngestionMetric) (ds : List String)
    (h : collectDocs splitter folder = Except.ok ds) (hne : ds ≠ []) :
    ingest_documents splitter folder metrics =
      Except.ok (successMsg ds.length folder.length, metrics) := by
  cases ds with
  | nil => exact absurd rfl hne
  | cons d t => simp [ingest_documents, h]

/-- Claim C9, witness: in `mixedFolder` only one of the three entries
contributes chunks (one is unrecognized, one fails to split), yet the
summary reports 3 files. -/
theorem ingest_file_count_is_listing_length_witness :
    (mixedFolder.filter (fileContributes semanticFailingOnBAD)).length = 1 ∧
    mixedFolder.length = 3 ∧
    ingest_documents semanticFailingOnBAD mixedFolder [] =
      Except.ok (successMsg 1 3, ([] : List IngestionMetric)) := by
  refine ⟨by rfl, by rfl, ?_⟩
  exact ingest_file_count_is_listing_length semanticFailingOnBAD mixedFolder []
    ["good content"] (by rfl) (by simp)

end RagUtils
